import Mathlib

/-!
Verification of the Dahua/Lorex RPC2 client (`custom_components/dahua/rpc2.py`).

The client is embedded as a pure state machine: the mutable fields of
`DahuaRpc2Client` become an explicit `ClientState`, the HTTP transport becomes
a list of scripted wire responses consumed in order (a mock transport), and
every method returns, besides its result (`Except` models Python exceptions),
the updated state, the remaining wire script, and the trace of envelopes it
posted.  JSON values are a deep embedding `JVal`; Python dicts are association
lists with Python's insertion-order update semantics.  MD5 is implemented in
full so the login digests are computed exactly as `hashlib.md5` does.
-/

namespace MD5

/-- Left-rotate a 32-bit word by `s` bits. -/
def rotl (x s : Nat) : Nat :=
  Nat.lor (Nat.shiftLeft x s % 2 ^ 32) (Nat.shiftRight x (32 - s))

/-- The 64 MD5 round constants, `K[i] = floor(2^32 * abs(sin(i+1)))`. -/
def K : List Nat :=
  [3614090360, 3905402710, 606105819, 3250441966, 4118548399, 1200080426,
   2821735955, 4249261313, 1770035416, 2336552879, 4294925233, 2304563134,
   1804603682, 4254626195, 2792965006, 1236535329, 4129170786, 3225465664,
   643717713, 3921069994, 3593408605, 38016083, 3634488961, 3889429448,
   568446438, 3275163606, 4107603335, 1163531501, 2850285829, 4243563512,
   1735328473, 2368359562, 4294588738, 2272392833, 1839030562, 4259657740,
   2763975236, 1272893353, 4139469664, 3200236656, 681279174, 3936430074,
   3572445317, 76029189, 3654602809, 3873151461, 530742520, 3299628645,
   4096336452, 1126891415, 2878612391, 4237533241, 1700485571, 2399980690,
   4293915773, 2240044497, 1873313359, 4264355552, 2734768916, 1309151649,
   4149444226, 3174756917, 718787259, 3951481745]

/-- The 64 per-round left-rotation amounts. -/
def S : List Nat :=
  [7, 12, 17, 22, 7, 12, 17, 22, 7, 12, 17, 22, 7, 12, 17, 22,
   5, 9, 14, 20, 5, 9, 14, 20, 5, 9, 14, 20, 5, 9, 14, 20,
   4, 11, 16, 23, 4, 11, 16, 23, 4, 11, 16, 23, 4, 11, 16, 23,
   6, 10, 15, 21, 6, 10, 15, 21, 6, 10, 15, 21, 6, 10, 15, 21]

/-- One MD5 round operation on state `(a, b, c, d)` with message words `m`. -/
def step (m : List Nat) (st : Nat × Nat × Nat × Nat) (i : Nat) : Nat × Nat × Nat × Nat :=
  let a := st.1
  let b := st.2.1
  let c := st.2.2.1
  let d := st.2.2.2
  let f :=
    if i < 16 then Nat.lor (Nat.land b c) (Nat.land (Nat.xor b 4294967295) d)
    else if i < 32 then Nat.lor (Nat.land d b) (Nat.land (Nat.xor d 4294967295) c)
    else if i < 48 then Nat.xor (Nat.xor b c) d
    else Nat.xor c (Nat.lor b (Nat.xor d 4294967295))
  let g :=
    if i < 16 then i
    else if i < 32 then (5 * i + 1) % 16
    else if i < 48 then (3 * i + 5) % 16
    else (7 * i) % 16
  let tmp := (a + f + K.getD i 0 + m.getD g 0) % 2 ^ 32
  (d, (b + rotl tmp (S.getD i 0)) % 2 ^ 32, b, c)

/-- Split the (little-endian) byte list of a chunk into 32-bit words. -/
def toWords : List Nat → List Nat
  | b0 :: b1 :: b2 :: b3 :: rest =>
      (b0 + 256 * b1 + 65536 * b2 + 16777216 * b3) :: toWords rest
  | _ => []

/-- Process one 64-byte chunk, updating the running state. -/
def processChunk (st : Nat × Nat × Nat × Nat) (chunk : List Nat) : Nat × Nat × Nat × Nat :=
  let m := toWords chunk
  let r := (List.range 64).foldl (step m) st
  ((st.1 + r.1) % 2 ^ 32, (st.2.1 + r.2.1) % 2 ^ 32,
   (st.2.2.1 + r.2.2.1) % 2 ^ 32, (st.2.2.2 + r.2.2.2) % 2 ^ 32)

/-- Little-endian 8-byte encoding of a 64-bit value. -/
def le8 (w : Nat) : List Nat :=
  [w % 256, w / 2 ^ 8 % 256, w / 2 ^ 16 % 256, w / 2 ^ 24 % 256,
   w / 2 ^ 32 % 256, w / 2 ^ 40 % 256, w / 2 ^ 48 % 256, w / 2 ^ 56 % 256]

/-- Little-endian 4-byte encoding of a 32-bit value. -/
def le4 (w : Nat) : List Nat :=
  [w % 256, w / 2 ^ 8 % 256, w / 2 ^ 16 % 256, w / 2 ^ 24 % 256]

/-- MD5 padding: append `0x80`, zeros up to 56 mod 64, then the 64-bit bit
length.  `padLen ≡ 55 - L (mod 64)`, computed as `(119 - L % 64) % 64` so the
`Nat` subtraction cannot underflow (`L % 64 ≤ 63 < 119`). -/
def pad (msg : List Nat) : List Nat :=
  let L := msg.length
  let padLen := (119 - L % 64) % 64
  msg ++ [128] ++ List.replicate padLen 0 ++ le8 (8 * L % 2 ^ 64)

/-- Split a byte list into 64-byte chunks (fuel-based structural recursion). -/
def chunksAux : Nat → List Nat → List (List Nat)
  | 0, _ => []
  | _, [] => []
  | Nat.succ n, l => l.take 64 :: chunksAux n (l.drop 64)

/-- The 16-byte MD5 digest of a byte list. -/
def md5Bytes (msg : List Nat) : List Nat :=
  let p := pad msg
  let r := (chunksAux p.length p).foldl processChunk
    (1732584193, 4023233417, 2562383102, 271733878)
  le4 r.1 ++ le4 r.2.1 ++ le4 r.2.2.1 ++ le4 r.2.2.2

/-- Lowercase hex digit for a value below 16. -/
def hexChar (n : Nat) : Char :=
  if n < 10 then Char.ofNat (48 + n) else Char.ofNat (87 + n)

/-- Lowercase hex string of a byte list, two digits per byte. -/
def bytesToHex (bs : List Nat) : String :=
  String.mk (bs.foldr (fun b acc => hexChar (b / 16) :: hexChar (b % 16) :: acc) [])

/-- UTF-8 encoding of one character as a byte list. -/
def utf8Bytes (c : Char) : List Nat :=
  let n := c.toNat
  if n < 128 then [n]
  else if n < 2048 then [192 + n / 64, 128 + n % 64]
  else if n < 65536 then [224 + n / 4096, 128 + n / 64 % 64, 128 + n % 64]
  else [240 + n / 262144, 128 + n / 4096 % 64, 128 + n / 64 % 64, 128 + n % 64]

/-- UTF-8 byte list of a string (Python `some_string.encode("utf-8")`). -/
def strBytes (s : String) : List Nat :=
  s.data.foldr (fun c acc => utf8Bytes c ++ acc) []

/-- Lowercase hex MD5 digest of a string, as `hashlib.md5(x.encode("utf-8")).hexdigest()`. -/
def md5HexOfString (s : String) : String :=
  bytesToHex (md5Bytes (strBytes s))

end MD5

namespace Rpc2

/-- Python `str.upper()` on the (ASCII) strings this client uppercases. -/
def pyUpper (s : String) : String := String.mk (s.data.map Char.toUpper)

/-- A decoded JSON value, the result of `json.loads` on a response body. -/
inductive JVal : Type where
  | null : JVal
  | bool (b : Bool) : JVal
  | num (n : Int) : JVal
  | str (s : String) : JVal
  | arr (xs : List JVal) : JVal
  | obj (fields : List (String × JVal)) : JVal
deriving Repr

/-- A Python dict with JSON values: an association list in insertion order. -/
abbrev JObj := List (String × JVal)

/-- Python `d[k]`-style lookup returning the value stored under `k`, if any. -/
def dictGet (d : JObj) (k : String) : Option JVal :=
  (d.find? (fun p => p.1 == k)).map (fun p => p.2)

/-- Python `d[k] = v`: overwrite in place if the key exists, else append. -/
def dictSet (d : JObj) (k : String) (v : JVal) : JObj :=
  if d.any (fun p => p.1 == k) then
    d.map (fun p => if p.1 == k then (k, v) else p)
  else d ++ [(k, v)]

/-- Python `d.update(e)`: set every key/value pair of `e` in order. -/
def dictUpdate (d e : JObj) : JObj :=
  e.foldl (fun acc p => dictSet acc p.1 p.2) d

/-- Python truthiness of a JSON-derived value. -/
def JVal.truthy : JVal → Bool
  | .null => false
  | .bool b => b
  | .num n => n != 0
  | .str s => s != ""
  | .arr xs => !xs.isEmpty
  | .obj fields => !fields.isEmpty

/-- Python `str()` of a JSON-derived value as used in f-string interpolation.
Scalar renderings are faithful; container renderings are abbreviated (the
client only ever interpolates the scalar `realm`/`random` challenge fields). -/
def pyStr : JVal → String
  | .null => "None"
  | .bool true => "True"
  | .bool false => "False"
  | .num n => toString n
  | .str s => s
  | .arr _ => "list"
  | .obj _ => "dict"

end Rpc2

namespace Rpc2

/-- The immutable configuration of `DahuaRpc2Client.__init__`: credentials and
the base URL derived from address and port. -/
structure ClientConfig where
  username : String
  password : String
  base : String
deriving Repr

/-- The mutable fields of a `DahuaRpc2Client` instance.  `_session_id` is a
decoded JSON value, `JVal.null` standing for Python `None`. -/
structure ClientState where
  session_id : JVal
  id : Nat
  logged_in : Bool
deriving Repr

/-- `DahuaRpc2Client.__init__`: scheme is https iff the port is 443; the
session id is `None`, the counter 0, and the client is not logged in. -/
def mkClient (username password address : String) (port : Nat) : ClientConfig × ClientState :=
  let protocol := if port == 443 then "https" else "http"
  (⟨username, password, protocol ++ "://" ++ address ++ ":" ++ toString port⟩,
   ⟨JVal.null, 0, false⟩)

/-- The Python exceptions the client can raise.  `decodeError` is the
`ValueError("Failed to decode JSON response")` of `request`, `apiCallError`
the `ConnectionError(f"API call failed: ...")` carrying the decoded response,
`keyError`/`attributeError`/`typeError` the builtin exceptions raised by
subscripting or `.get` on decoded values, and `transportError` any exception
raised by `aiohttp` during the POST itself. -/
inductive Err : Type where
  | decodeError (raw : String)
  | apiCallError (resp : JVal)
  | keyError (key : String)
  | attributeError
  | typeError
  | transportError
deriving Repr

/-- The body text of one HTTP response: either text that parses as the JSON
value `j`, or text that is not valid JSON. -/
inductive Body : Type where
  | json (j : JVal)
  | invalid (raw : String)
deriving Repr

/-- One scripted transport interaction: either an HTTP response with a status
code and a body, or an exception raised by the POST itself. -/
inductive WireResp : Type where
  | ok (status : Nat) (body : Body)
  | exn
deriving Repr

/-- One envelope as posted on the wire: target URL and the serialized dict. -/
structure Sent where
  url : String
  data : JObj
deriving Repr

/-- A trace event: an envelope was posted, or a login attempt was initiated
(the state reset of `login`, lines 88-89, which precedes its first POST). -/
inductive Ev : Type where
  | sent (s : Sent)
  | loginStart
deriving Repr

/-- The outcome of one client method: Python result or exception, the state of
the client when the method returned or raised, the remaining wire script, and
the trace of events it produced. -/
structure Step (alpha : Type) where
  res : Except Err alpha
  st : ClientState
  wire : List WireResp
  trace : List Ev

/-- `request` lines 60-61: default the target URL to `{base}/RPC2` when the
`url` argument is `None` or empty (`if not url:`). -/
def resolveUrl (cfg : ClientConfig) (url : Option String) : String :=
  match url with
  | none => cfg.base ++ "/RPC2"
  | some u => if u == "" then cfg.base ++ "/RPC2" else u

/-- `request` lines 50-59: build the envelope dict.  `c` already carries the
incremented counter.  `method` and `id` always; `params` if not `None`;
`object` if `object_id` is truthy; then `data.update(extra)`; then `session`
if the stored session id is truthy (this runs after the `extra` merge). -/
def mkEnvelope (c : ClientState) (method : String) (params object_id : Option JVal)
    (extra : Option JObj) : JObj :=
  let d0 : JObj := [("method", JVal.str method), ("id", JVal.num (Int.ofNat c.id))]
  let d1 := match params with
    | some p => dictSet d0 "params" p
    | none => d0
  let d2 := match object_id with
    | some o => if o.truthy then dictSet d1 "object" o else d1
    | none => d1
  let d3 := match extra with
    | some e => dictUpdate d2 e
    | none => d2
  if c.session_id.truthy then dictSet d3 "session" c.session_id else d3

/-- `request` lines 65-80: consume the next wire interaction.  A transport
exception propagates; a body that is not JSON raises the decode `ValueError`;
with `verify_result`, a decoded `result` that `is False` raises the
`ConnectionError` carrying the response (and `.get` on a non-dict raises
`AttributeError`); otherwise the decoded response is returned. -/
def respond (verify_result : Bool) (w : List WireResp) : Except Err JVal :=
  match w with
  | [] => .error .transportError
  | .exn :: _ => .error .transportError
  | .ok _ (.invalid raw) :: _ => .error (.decodeError raw)
  | .ok _ (.json j) :: _ =>
    if verify_result then
      match j with
      | .obj fields =>
        match dictGet fields "result" with
        | some (.bool false) => .error (.apiCallError j)
        | _ => .ok j
      | _ => .error .attributeError
    else .ok j

/-- `DahuaRpc2Client.request` (lines 48-83): increment the counter, build and
post the envelope, and classify the response.  The HTTP status code of the
response is never inspected. -/
def request (cfg : ClientConfig) (c : ClientState) (w : List WireResp) (method : String)
    (params object_id : Option JVal) (extra : Option JObj) (url : Option String)
    (verify_result : Bool) : Step JVal :=
  let c' : ClientState := { c with id := c.id + 1 }
  ⟨respond verify_result w, c', w.tail,
   [.sent ⟨resolveUrl cfg url, mkEnvelope c' method params object_id extra⟩]⟩

/-- Python `j[k]` on a decoded value: `KeyError` if the key is absent,
`TypeError` if `j` is not a dict. -/
def pyIndex (j : JVal) (k : String) : Except Err JVal :=
  match j with
  | .obj fields =>
    match dictGet fields k with
    | some v => .ok v
    | none => .error (.keyError k)
  | _ => .error .typeError

/-- Python `j.get(k)` on a decoded value: `AttributeError` if `j` is not a
dict, else the value or `None`. -/
def pyGet (j : JVal) (k : String) : Except Err (Option JVal) :=
  match j with
  | .obj fields => .ok (dictGet fields k)
  | _ => .error .attributeError

/-- Python `x == True` for an optional decoded value: true for the boolean
`True` and for the number 1 (`bool` is an `int` subclass in Python). -/
def pyEqTrue : Option JVal → Bool
  | some (.bool b) => b
  | some (.num n) => n == 1
  | _ => false

/-- Python `x == some_string` for a decoded value. -/
def pyEqStr : JVal → String → Bool
  | .str s, t => s == t
  | _, _ => false

/-- `login` lines 106-107: `md5(f"{username}:{realm}:{password}").hexdigest().upper()`. -/
def pwd_hash_of (username realm password : String) : String :=
  pyUpper (MD5.md5HexOfString (username ++ ":" ++ realm ++ ":" ++ password))

/-- `login` lines 108-109: `md5(f"{username}:{random}:{pwd_hash}").hexdigest().upper()`. -/
def pass_hash_of (username random pwd_hash : String) : String :=
  pyUpper (MD5.md5HexOfString (username ++ ":" ++ random ++ ":" ++ pwd_hash))

/-- `DahuaRpc2Client.current_time` (lines 147-152): `global.getCurrentTime`,
then extract `response['params']['time']`. -/
def current_time (cfg : ClientConfig) (c : ClientState) (w : List WireResp) : Step JVal :=
  let r := request cfg c w "global.getCurrentTime" none none none none true
  match r.res with
  | .error e => ⟨.error e, r.st, r.wire, r.trace⟩
  | .ok response =>
    match pyIndex response "params" with
    | .error e => ⟨.error e, r.st, r.wire, r.trace⟩
    | .ok ps =>
      match pyIndex ps "time" with
      | .error e => ⟨.error e, r.st, r.wire, r.trace⟩
      | .ok t => ⟨.ok t, r.st, r.wire, r.trace⟩

/-- `DahuaRpc2Client.login` (lines 85-129).  Clear the session id and reset the
counter; send the challenge request (`verify_result=False`) to `RPC2_Login`;
read `session`, `params.realm`, `params.random`; derive the two digests; send
the hash-phase request; on `result == True` set `logged_in` and fetch the
device time (the logged f-string awaits `current_time()`), returning the
hash-phase response; otherwise return Python `False`. -/
def login (cfg : ClientConfig) (c : ClientState) (w : List WireResp) : Step JVal :=
  let c0 : ClientState := { c with session_id := JVal.null, id := 0 }
  let url := cfg.base ++ "/RPC2_Login"
  let params1 : JVal := .obj [("userName", .str cfg.username), ("password", .str ""),
    ("clientType", .str "Dahua3.0-Web3.0")]
  let r1 := request cfg c0 w "global.login" (some params1) none none (some url) false
  let t1 := Ev.loginStart :: r1.trace
  match r1.res with
  | .error e => ⟨.error e, r1.st, r1.wire, t1⟩
  | .ok r =>
    match pyIndex r "session" with
    | .error e => ⟨.error e, r1.st, r1.wire, t1⟩
    | .ok sess =>
      let c1 : ClientState := { r1.st with session_id := sess }
      match pyIndex r "params" with
      | .error e => ⟨.error e, c1, r1.wire, t1⟩
      | .ok ps =>
        match pyIndex ps "realm" with
        | .error e => ⟨.error e, c1, r1.wire, t1⟩
        | .ok realm =>
          match pyIndex ps "random" with
          | .error e => ⟨.error e, c1, r1.wire, t1⟩
          | .ok random =>
            let pass_hash := pass_hash_of cfg.username (pyStr random)
              (pwd_hash_of cfg.username (pyStr realm) cfg.password)
            let params2 : JVal := .obj [("userName", .str cfg.username),
              ("password", .str pass_hash), ("clientType", .str "Dahua3.0-Web3.0"),
              ("authorityType", .str "Default"), ("passwordType", .str "Default")]
            let r2 := request cfg c1 r1.wire "global.login" (some params2) none none
              (some url) true
            let t2 := t1 ++ r2.trace
            match r2.res with
            | .error e => ⟨.error e, r2.st, r2.wire, t2⟩
            | .ok response =>
              match pyGet response "result" with
              | .error e => ⟨.error e, r2.st, r2.wire, t2⟩
              | .ok res_opt =>
                if pyEqTrue res_opt then
                  let c2 : ClientState := { r2.st with logged_in := true }
                  let r3 := current_time cfg c2 r2.wire
                  let t3 := t2 ++ r3.trace
                  match r3.res with
                  | .error e => ⟨.error e, r3.st, r3.wire, t3⟩
                  | .ok _ => ⟨.ok response, r3.st, r3.wire, t3⟩
                else
                  ⟨.ok (JVal.bool false), r2.st, r2.wire, t2⟩

/-- `DahuaRpc2Client.logout` (lines 131-145): send `global.logout`; return
whether the decoded `result` `is True`; catch every exception and return
`False`. -/
def logout (cfg : ClientConfig) (c : ClientState) (w : List WireResp) : Step Bool :=
  let r := request cfg c w "global.logout" none none none none true
  let res : Bool :=
    match r.res with
    | .error _ => false
    | .ok response =>
      match pyGet response "result" with
      | .error _ => false
      | .ok (some (.bool true)) => true
      | .ok _ => false
  ⟨.ok res, r.st, r.wire, r.trace⟩

/-- `DahuaRpc2Client.get_serial_number` (lines 154-159): `magicBox.getSerialNo`,
then extract `response['params']['sn']`. -/
def get_serial_number (cfg : ClientConfig) (c : ClientState) (w : List WireResp) : Step JVal :=
  let r := request cfg c w "magicBox.getSerialNo" none none none none true
  match r.res with
  | .error e => ⟨.error e, r.st, r.wire, r.trace⟩
  | .ok response =>
    match pyIndex response "params" with
    | .error e => ⟨.error e, r.st, r.wire, r.trace⟩
    | .ok ps =>
      match pyIndex ps "sn" with
      | .error e => ⟨.error e, r.st, r.wire, r.trace⟩
      | .ok sn => ⟨.ok sn, r.st, r.wire, r.trace⟩

/-- `DahuaRpc2Client.get_config` (lines 161-166): `configManager.getConfig`
with the supplied params, returning `response['params']`. -/
def get_config (cfg : ClientConfig) (c : ClientState) (w : List WireResp)
    (params : JVal) : Step JVal :=
  let r := request cfg c w "configManager.getConfig" (some params) none none none true
  match r.res with
  | .error e => ⟨.error e, r.st, r.wire, r.trace⟩
  | .ok response =>
    match pyIndex response "params" with
    | .error e => ⟨.error e, r.st, r.wire, r.trace⟩
    | .ok ps => ⟨.ok ps, r.st, r.wire, r.trace⟩

/-- `DahuaRpc2Client.get_device_name` (lines 168-173): `get_config` for
`{"name": "General"}`, then extract `data["table"]["MachineName"]`. -/
def get_device_name (cfg : ClientConfig) (c : ClientState) (w : List WireResp) : Step JVal :=
  let g := get_config cfg c w (.obj [("name", .str "General")])
  match g.res with
  | .error e => ⟨.error e, g.st, g.wire, g.trace⟩
  | .ok data =>
    match pyIndex data "table" with
    | .error e => ⟨.error e, g.st, g.wire, g.trace⟩
    | .ok t =>
      match pyIndex t "MachineName" with
      | .error e => ⟨.error e, g.st, g.wire, g.trace⟩
      | .ok n => ⟨.ok n, g.st, g.wire, g.trace⟩

/-- The `CoaxialControlIOStatus` dataclass (lines 15-24). -/
structure CoaxialControlIOStatus where
  speaker : Bool
  white_light : Bool
  api_response : JVal
deriving Repr

/-- `CoaxialControlIOStatus.__post_init__`: decode
`api_response["params"]["status"]`, comparing `Speaker` and `WhiteLight`
against the string `"On"`. -/
def coaxial_status_of (response : JVal) : Except Err CoaxialControlIOStatus :=
  match pyIndex response "params" with
  | .error e => .error e
  | .ok ps =>
    match pyIndex ps "status" with
    | .error e => .error e
    | .ok status =>
      match pyIndex status "Speaker" with
      | .error e => .error e
      | .ok sp =>
        match pyIndex status "WhiteLight" with
        | .error e => .error e
        | .ok wl => .ok ⟨pyEqStr sp "On", pyEqStr wl "On", response⟩

/-- `DahuaRpc2Client.get_coaxial_control_io_status` (lines 175-181): always
`login` first (its soft `False` return is not checked), then
`CoaxialControlIO.getStatus` for the channel, decoded into the dataclass. -/
def get_coaxial_control_io_status (cfg : ClientConfig) (c : ClientState)
    (w : List WireResp) (channel : Int) : Step CoaxialControlIOStatus :=
  let l := login cfg c w
  match l.res with
  | .error e => ⟨.error e, l.st, l.wire, l.trace⟩
  | .ok _ =>
    let r := request cfg l.st l.wire "CoaxialControlIO.getStatus"
      (some (.obj [("channel", .num channel)])) none none none true
    let t := l.trace ++ r.trace
    match r.res with
    | .error e => ⟨.error e, r.st, r.wire, t⟩
    | .ok response =>
      match coaxial_status_of response with
      | .error e => ⟨.error e, r.st, r.wire, t⟩
      | .ok s => ⟨.ok s, r.st, r.wire, t⟩

/-- `DahuaRpc2Client.set_coaxial_control_io_status` (lines 184-190): always
`login` first, then `CoaxialControlIO.control` with the info record, then a
full `get_coaxial_control_io_status` (which logs in again) for the result. -/
def set_coaxial_control_io_status (cfg : ClientConfig) (c : ClientState)
    (w : List WireResp) (channel type_ ioline trigger_mode : Int) :
    Step CoaxialControlIOStatus :=
  let l := login cfg c w
  match l.res with
  | .error e => ⟨.error e, l.st, l.wire, l.trace⟩
  | .ok _ =>
    let params : JVal := .obj [("channel", .num channel),
      ("info", .arr [.obj [("Type", .num type_), ("IO", .num ioline),
        ("TriggerMode", .num trigger_mode)]])]
    let r := request cfg l.st l.wire "CoaxialControlIO.control" (some params)
      none none none true
    let t := l.trace ++ r.trace
    match r.res with
    | .error e => ⟨.error e, r.st, r.wire, t⟩
    | .ok _ =>
      let g := get_coaxial_control_io_status cfg r.st r.wire channel
      ⟨g.res, g.st, g.wire, t ++ g.trace⟩

end Rpc2

namespace Rpc2

/-- One public operation of the client, as invoked in this repository.  The
raw `request` form carries the arguments the client itself ever passes;
`extra` is never supplied by any caller in the repository (it can override
arbitrary envelope fields, including `id`, see the envelope theorems). -/
inductive Op : Type where
  | rawRequest (method : String) (params object_id : Option JVal)
      (url : Option String) (verify_result : Bool)
  | login
  | logout
  | currentTime
  | getSerialNumber
  | getConfig (params : JVal)
  | getDeviceName
  | getCoax (channel : Int)
  | setCoax (channel type_ ioline trigger_mode : Int)

/-- Run one operation, discarding its Python result (the caller catches any
exception); the client state, remaining wire script, and trace persist. -/
def runOp (cfg : ClientConfig) (op : Op) (c : ClientState) (w : List WireResp) :
    ClientState × List WireResp × List Ev :=
  match op with
  | .rawRequest method params object_id url verify_result =>
    let s := request cfg c w method params object_id none url verify_result
    (s.st, s.wire, s.trace)
  | .login => let s := login cfg c w; (s.st, s.wire, s.trace)
  | .logout => let s := logout cfg c w; (s.st, s.wire, s.trace)
  | .currentTime => let s := current_time cfg c w; (s.st, s.wire, s.trace)
  | .getSerialNumber => let s := get_serial_number cfg c w; (s.st, s.wire, s.trace)
  | .getConfig p => let s := get_config cfg c w p; (s.st, s.wire, s.trace)
  | .getDeviceName => let s := get_device_name cfg c w; (s.st, s.wire, s.trace)
  | .getCoax ch => let s := get_coaxial_control_io_status cfg c w ch; (s.st, s.wire, s.trace)
  | .setCoax ch ty ioline tm =>
    let s := set_coaxial_control_io_status cfg c w ch ty ioline tm
    (s.st, s.wire, s.trace)

/-- Run a sequence of operations on one client instance, concatenating the
wire traces. -/
def runOps (cfg : ClientConfig) : List Op → ClientState → List WireResp →
    ClientState × List WireResp × List Ev
  | [], c, w => (c, w, [])
  | op :: rest, c, w =>
    let s := runOp cfg op c w
    let s' := runOps cfg rest s.1 s.2.1
    (s'.1, s'.2.1, s.2.2 ++ s'.2.2)

/-- Whether the envelope of a posted request carries the wire id `n`. -/
def sentIdIs (s : Sent) (n : Nat) : Bool :=
  match dictGet s.data "id" with
  | some (.num m) => m == Int.ofNat n
  | _ => false

/-- Check a trace of events against the id discipline: every posted envelope
carries an id one above the previous one, and initiating a login resets the
counter so the next envelope carries id 1. -/
def goodIds : Nat → List Ev → Bool
  | _, [] => true
  | _, .loginStart :: rest => goodIds 0 rest
  | n, .sent s :: rest => sentIdIs s (n + 1) && goodIds (n + 1) rest

/-- The id counter value after a trace of events, starting from `n`. -/
def endId : Nat → List Ev → Nat
  | n, [] => n
  | _, .loginStart :: rest => endId 0 rest
  | n, .sent _ :: rest => endId (n + 1) rest

/-- The method name an event posted, if it posted an envelope. -/
def evMethod : Ev → Option String
  | .sent s =>
    match dictGet s.data "method" with
    | some (.str m) => some m
    | _ => none
  | .loginStart => none

/-- The wire id an event posted, if it posted an envelope carrying a number. -/
def evId : Ev → Option Int
  | .sent s =>
    match dictGet s.data "id" with
    | some (.num m) => some m
    | _ => none
  | .loginStart => none

/-- The `password` field inside the `params` object of a posted envelope. -/
def sentPassword : Ev → Option JVal
  | .sent s =>
    match dictGet s.data "params" with
    | some (.obj p) => dictGet p "password"
    | _ => none
  | .loginStart => none

/-- Whether a trace begins with a login attempt: the login-start reset followed
by a posted `global.login` envelope. -/
def startsWithLogin : List Ev → Bool
  | .loginStart :: e :: _ =>
    match evMethod e with
    | some m => m == "global.login"
    | none => false
  | _ => false

/-- Whether an `object_id` argument is provided and Python-truthy. -/
def objTruthy : Option JVal → Bool
  | none => false
  | some o => o.truthy

/-- The challenge response used in the success-path lemmas. -/
def challengeResp (sv : JVal) (realm rnd : String) : JVal :=
  .obj [("session", sv), ("params", .obj [("realm", .str realm), ("random", .str rnd)])]

/-- The Python `r['params']['time']` extraction of `current_time`. -/
def timeExtract (j : JVal) : Except Err JVal :=
  match pyIndex j "params" with
  | .ok ps => pyIndex ps "time"
  | .error e => .error e

/-- The logout result as the spec describes it: true exactly when the next
wire interaction is an HTTP response whose body decodes to a dict whose
`result` is the boolean `true`. -/
def logout_result_spec (w : List WireResp) : Bool :=
  match w with
  | .ok _ (.json (.obj f)) :: _ =>
    match dictGet f "result" with
    | some (.bool true) => true
    | _ => false
  | _ => false

/-- A concrete client used by the witness and counterexample theorems:
`DahuaRpc2Client("u", "p", "h", 80, ...)`. -/
def cfgEx : ClientConfig := (mkClient "u" "p" "h" 80).1

/-- The fresh state of the concrete client `cfgEx`. -/
def stEx : ClientState := (mkClient "u" "p" "h" 80).2

end Rpc2

namespace Rpc2

theorem find?_cons_pos {alpha : Type} (f : alpha → Bool) (a : alpha) (l : List alpha)
    (h : f a = true) : List.find? f (a :: l) = some a := by
  simp [List.find?_cons, h]

theorem find?_cons_neg {alpha : Type} (f : alpha → Bool) (a : alpha) (l : List alpha)
    (h : f a = false) : List.find? f (a :: l) = List.find? f l := by
  simp [List.find?_cons, h]

theorem dictGet_map_replace (d : JObj) (k : String) (v : JVal) (k' : String) :
    dictGet (d.map (fun p => if p.1 == k then (k, v) else p)) k' =
      if k' = k then (if d.any (fun p => p.1 == k) then some v else none)
      else dictGet d k' := by
  induction d with
  | nil => by_cases h : k' = k <;> simp [dictGet, h]
  | cons p rest ih =>
    rw [List.map_cons]
    cases hpk : (p.1 == k) with
    | true =>
      have hpk2 : p.1 = k := by rwa [beq_iff_eq] at hpk
      rw [if_pos rfl]
      by_cases h : k' = k
      · subst h
        rw [if_pos rfl] at ih ⊢
        rw [dictGet, find?_cons_pos (fun q => q.1 == k') (k', v) _ (by simp)]
        rw [List.any_cons, hpk, Bool.true_or, if_pos rfl]
        rfl
      · have hkk' : (fun q : String × JVal => q.1 == k') (k, v) = false := by
          simp [beq_iff_eq]; exact fun hh => h hh.symm
        have hpk' : (fun q : String × JVal => q.1 == k') p = false := by
          simp_all [beq_iff_eq]
        rw [if_neg h]
        rw [dictGet, find?_cons_neg (fun q => q.1 == k') (k, v) _ hkk']
        rw [dictGet, find?_cons_neg (fun q => q.1 == k') p _ hpk']
        rw [if_neg h] at ih
        exact ih
    | false =>
      rw [if_neg (by simp)]
      cases hpk' : (p.1 == k') with
      | true =>
        have h : ¬ k' = k := by
          rw [beq_iff_eq] at hpk'
          intro hh; subst hh; simp_all
        rw [if_neg h]
        rw [dictGet, find?_cons_pos (fun q => q.1 == k') p _ hpk',
          dictGet, find?_cons_pos (fun q => q.1 == k') p _ hpk']
      | false =>
        rw [dictGet, find?_cons_neg (fun q => q.1 == k') p _ hpk']
        by_cases h : k' = k
        · subst h
          rw [if_pos rfl] at ih ⊢
          rw [List.any_cons]
          simp only [hpk, Bool.false_or]
          exact ih
        · rw [if_neg h] at ih ⊢
          rw [dictGet, find?_cons_neg (fun q => q.1 == k') p _ hpk']
          exact ih

theorem dictGet_dictSet (d : JObj) (k k' : String) (v : JVal) :
    dictGet (dictSet d k v) k' = if k' = k then some v else dictGet d k' := by
  unfold dictSet
  by_cases ha : (d.any fun p => p.1 == k) = true
  · rw [if_pos ha, dictGet_map_replace, ha]
    by_cases h : k' = k <;> simp [h]
  · rw [if_neg ha]
    have hnone : dictGet d k = none := by
      unfold dictGet
      rw [List.find?_eq_none.mpr]
      · rfl
      · intro x hx
        simp only [List.any_eq_true, not_exists, not_and] at ha
        simp [ha x hx]
    by_cases h : k' = k
    · subst h
      rw [if_pos rfl]
      unfold dictGet at hnone ⊢
      rw [List.find?_append]
      cases hfind : List.find? (fun p => p.1 == k') d with
      | none =>
        simp only [Option.none_or]
        rw [find?_cons_pos (fun q => q.1 == k') (k', v) _ (by simp)]
        rfl
      | some x => rw [hfind] at hnone; simp at hnone
    · rw [if_neg h]
      unfold dictGet
      rw [List.find?_append]
      cases hfind : List.find? (fun p => p.1 == k') d with
      | none =>
        simp only [Option.none_or]
        rw [find?_cons_neg (fun q => q.1 == k') (k, v) _
          (by simp [beq_iff_eq]; exact fun hh => h hh.symm)]
        simp [List.find?]
      | some x => simp

end Rpc2

namespace Rpc2

theorem dictGet_dictUpdate_of_none (d e : JObj) (k : String)
    (h : dictGet e k = none) : dictGet (dictUpdate d e) k = dictGet d k := by
  induction e generalizing d with
  | nil => rfl
  | cons p rest ih =>
    have hpk : (p.1 == k) = false := by
      unfold dictGet at h
      cases hq : (p.1 == k) with
      | true => rw [find?_cons_pos (fun q => q.1 == k) p _ hq] at h; simp at h
      | false => rfl
    have hrest : dictGet rest k = none := by
      unfold dictGet at h ⊢
      rwa [find?_cons_neg (fun q => q.1 == k) p _ hpk] at h
    unfold dictUpdate at ih ⊢
    rw [List.foldl_cons]
    rw [ih _ hrest]
    rw [dictGet_dictSet]
    rw [if_neg (by simp_all [beq_iff_eq]; exact fun hh => by simp [hh] at hpk)]

theorem dictGet_dictUpdate_of_some (d e : JObj) (k : String) (v : JVal)
    (hnd : (e.map Prod.fst).Nodup) (h : dictGet e k = some v) :
    dictGet (dictUpdate d e) k = some v := by
  induction e generalizing d with
  | nil => simp [dictGet] at h
  | cons p rest ih =>
    rw [List.map_cons, List.nodup_cons] at hnd
    unfold dictUpdate
    rw [List.foldl_cons]
    cases hpk : (p.1 == k) with
    | true =>
      have hpk2 : p.1 = k := by rwa [beq_iff_eq] at hpk
      have hv : p.2 = v := by
        unfold dictGet at h
        rw [find?_cons_pos (fun q => q.1 == k) p _ hpk] at h
        simpa using h
      have hrest : dictGet rest k = none := by
        unfold dictGet
        rw [List.find?_eq_none.mpr]
        · rfl
        · intro x hx
          have : x.1 ∈ rest.map Prod.fst := List.mem_map_of_mem _ hx
          simp only [beq_iff_eq]
          intro hxk
          exact hnd.1 (by rw [hpk2, ← hxk]; exact this)
      have hfold : List.foldl (fun acc p => dictSet acc p.1 p.2) (dictSet d p.1 p.2) rest =
          dictUpdate (dictSet d p.1 p.2) rest := rfl
      rw [hfold, dictGet_dictUpdate_of_none _ _ _ hrest]
      rw [dictGet_dictSet]
      rw [if_pos hpk2.symm]
      rw [hv]
    | false =>
      have hrest : dictGet rest k = some v := by
        unfold dictGet at h ⊢
        rwa [find?_cons_neg (fun q => q.1 == k) p _ hpk] at h
      exact ih _ hnd.2 hrest

end Rpc2

namespace Rpc2

theorem dictGet_mkEnvelope_id (c : ClientState) (m : String) (p o : Option JVal) :
    dictGet (mkEnvelope c m p o none) "id" = some (.num (c.id : Int)) := by
  have base : dictGet [("method", JVal.str m), ("id", JVal.num (c.id : Int))] "id" =
      some (JVal.num (c.id : Int)) := by
    rw [dictGet, find?_cons_neg (fun q : String × JVal => q.1 == "id") _ _ (by simp),
      find?_cons_pos (fun q : String × JVal => q.1 == "id") _ _ (by simp)]
    rfl
  simp only [mkEnvelope]
  cases p <;> cases o <;> (repeat' split) <;> simp [dictGet_dictSet, base]

theorem dictGet_mkEnvelope_method (c : ClientState) (m : String) (p o : Option JVal) :
    dictGet (mkEnvelope c m p o none) "method" = some (.str m) := by
  have base : dictGet [("method", JVal.str m), ("id", JVal.num (c.id : Int))] "method" =
      some (JVal.str m) := by
    rw [dictGet, find?_cons_pos (fun q : String × JVal => q.1 == "method") _ _ (by simp)]
    rfl
  simp only [mkEnvelope]
  cases p <;> cases o <;> (repeat' split) <;> simp [dictGet_dictSet, base]

theorem goodIds_append (n : Nat) (t1 t2 : List Ev) :
    goodIds n (t1 ++ t2) = (goodIds n t1 && goodIds (endId n t1) t2) := by
  induction t1 generalizing n with
  | nil => simp [goodIds, endId]
  | cons e rest ih =>
    cases e with
    | sent s =>
      simp [goodIds, endId, ih]
      cases sentIdIs s (n + 1) <;> simp
    | loginStart => simp [goodIds, endId, ih]

theorem endId_append (n : Nat) (t1 t2 : List Ev) :
    endId n (t1 ++ t2) = endId (endId n t1) t2 := by
  induction t1 generalizing n with
  | nil => rfl
  | cons e rest ih => cases e <;> simp [endId, ih]

theorem sentIdIs_mkEnvelope (u : String) (c : ClientState) (m : String)
    (p o : Option JVal) : sentIdIs ⟨u, mkEnvelope c m p o none⟩ c.id = true := by
  simp [sentIdIs, dictGet_mkEnvelope_id]

theorem evMethod_mkEnvelope (u : String) (c : ClientState) (m : String)
    (p o : Option JVal) :
    evMethod (.sent ⟨u, mkEnvelope c m p o none⟩) = some m := by
  simp [evMethod, dictGet_mkEnvelope_method]

end Rpc2

namespace Rpc2

theorem request_st (cfg : ClientConfig) (c : ClientState) (w : List WireResp)
    (m : String) (p o : Option JVal) (e : Option JObj) (u : Option String) (vr : Bool) :
    (request cfg c w m p o e u vr).st = { c with id := c.id + 1 } := rfl

theorem request_trace (cfg : ClientConfig) (c : ClientState) (w : List WireResp)
    (m : String) (p o : Option JVal) (e : Option JObj) (u : Option String) (vr : Bool) :
    (request cfg c w m p o e u vr).trace =
      [.sent ⟨resolveUrl cfg u, mkEnvelope { c with id := c.id + 1 } m p o e⟩] := rfl

theorem goodIds_request (cfg : ClientConfig) (c : ClientState) (w : List WireResp)
    (m : String) (p o : Option JVal) (u : Option String) (vr : Bool) :
    goodIds c.id (request cfg c w m p o none u vr).trace = true := by
  have h := sentIdIs_mkEnvelope (resolveUrl cfg u) { c with id := c.id + 1 } m p o
  simp [request_trace, goodIds, h]

theorem endId_request (cfg : ClientConfig) (c : ClientState) (w : List WireResp)
    (m : String) (p o : Option JVal) (e : Option JObj) (u : Option String) (vr : Bool)
    (n : Nat) : endId n (request cfg c w m p o e u vr).trace = n + 1 := by
  simp [request_trace, endId]

theorem current_time_trace (cfg : ClientConfig) (c : ClientState) (w : List WireResp) :
    (current_time cfg c w).trace =
      (request cfg c w "global.getCurrentTime" none none none none true).trace := by
  simp only [current_time]
  repeat' split
  all_goals rfl

theorem current_time_st (cfg : ClientConfig) (c : ClientState) (w : List WireResp) :
    (current_time cfg c w).st = { c with id := c.id + 1 } := by
  simp only [current_time]
  repeat' split
  all_goals rfl

end Rpc2

namespace Rpc2

theorem login_goodIds_endId (cfg : ClientConfig) (c : ClientState) (w : List WireResp)
    (n : Nat) :
    goodIds n (login cfg c w).trace = true ∧
      endId n (login cfg c w).trace = (login cfg c w).st.id := by
  simp only [login]
  repeat' split
  all_goals
    simp [request_trace, request_st, current_time_trace, current_time_st,
      goodIds, endId, goodIds_append, endId_append, sentIdIs, dictGet_mkEnvelope_id]

end Rpc2

namespace Rpc2

theorem logout_trace (cfg : ClientConfig) (c : ClientState) (w : List WireResp) :
    (logout cfg c w).trace = (request cfg c w "global.logout" none none none none true).trace := rfl

theorem logout_st (cfg : ClientConfig) (c : ClientState) (w : List WireResp) :
    (logout cfg c w).st = { c with id := c.id + 1 } := rfl

theorem get_serial_number_trace (cfg : ClientConfig) (c : ClientState) (w : List WireResp) :
    (get_serial_number cfg c w).trace =
      (request cfg c w "magicBox.getSerialNo" none none none none true).trace := by
  simp only [get_serial_number]
  repeat' split
  all_goals rfl

theorem get_serial_number_st (cfg : ClientConfig) (c : ClientState) (w : List WireResp) :
    (get_serial_number cfg c w).st = { c with id := c.id + 1 } := by
  simp only [get_serial_number]
  repeat' split
  all_goals rfl

theorem get_config_trace (cfg : ClientConfig) (c : ClientState) (w : List WireResp)
    (params : JVal) :
    (get_config cfg c w params).trace =
      (request cfg c w "configManager.getConfig" (some params) none none none true).trace := by
  simp only [get_config]
  repeat' split
  all_goals rfl

theorem get_config_st (cfg : ClientConfig) (c : ClientState) (w : List WireResp)
    (params : JVal) : (get_config cfg c w params).st = { c with id := c.id + 1 } := by
  simp only [get_config]
  repeat' split
  all_goals rfl

theorem get_device_name_trace (cfg : ClientConfig) (c : ClientState) (w : List WireResp) :
    (get_device_name cfg c w).trace =
      (get_config cfg c w (.obj [("name", .str "General")])).trace := by
  simp only [get_device_name]
  repeat' split
  all_goals rfl

theorem get_device_name_st (cfg : ClientConfig) (c : ClientState) (w : List WireResp) :
    (get_device_name cfg c w).st = { c with id := c.id + 1 } := by
  simp only [get_device_name]
  repeat' split
  all_goals simp [get_config_st]

theorem coax_get_goodIds_endId (cfg : ClientConfig) (c : ClientState) (w : List WireResp)
    (channel : Int) (n : Nat) :
    goodIds n (get_coaxial_control_io_status cfg c w channel).trace = true ∧
      endId n (get_coaxial_control_io_status cfg c w channel).trace =
        (get_coaxial_control_io_status cfg c w channel).st.id := by
  have h1 := (login_goodIds_endId cfg c w n).1
  have h2 := (login_goodIds_endId cfg c w n).2
  simp only [get_coaxial_control_io_status]
  repeat' split
  all_goals
    simp [h1, h2, request_trace, request_st, goodIds, endId, goodIds_append,
      endId_append, sentIdIs, dictGet_mkEnvelope_id]

theorem coax_set_goodIds_endId (cfg : ClientConfig) (c : ClientState) (w : List WireResp)
    (channel type_ ioline trigger_mode : Int) (n : Nat) :
    goodIds n (set_coaxial_control_io_status cfg c w channel type_ ioline trigger_mode).trace = true ∧
      endId n (set_coaxial_control_io_status cfg c w channel type_ ioline trigger_mode).trace =
        (set_coaxial_control_io_status cfg c w channel type_ ioline trigger_mode).st.id := by
  have h1 := (login_goodIds_endId cfg c w n).1
  have h2 := (login_goodIds_endId cfg c w n).2
  simp only [set_coaxial_control_io_status]
  repeat' split
  all_goals
    simp [h1, h2, request_trace, request_st, goodIds, endId, goodIds_append,
      endId_append, sentIdIs, dictGet_mkEnvelope_id, coax_get_goodIds_endId]

end Rpc2

namespace Rpc2

theorem runOp_goodIds_endId (cfg : ClientConfig) (op : Op) (c : ClientState)
    (w : List WireResp) :
    goodIds c.id (runOp cfg op c w).2.2 = true ∧
      endId c.id (runOp cfg op c w).2.2 = (runOp cfg op c w).1.id := by
  cases op with
  | rawRequest m p o u vr =>
    refine ⟨goodIds_request cfg c w m p o u vr, ?_⟩
    simp [runOp, endId_request, request_st]
  | login => exact login_goodIds_endId cfg c w c.id
  | logout =>
    constructor
    · have := goodIds_request cfg c w "global.logout" none none none true
      simpa [runOp, logout_trace] using this
    · simp [runOp, logout_trace, logout_st, endId_request]
  | currentTime =>
    constructor
    · have := goodIds_request cfg c w "global.getCurrentTime" none none none true
      simpa [runOp, current_time_trace] using this
    · simp [runOp, current_time_trace, current_time_st, endId_request]
  | getSerialNumber =>
    constructor
    · have := goodIds_request cfg c w "magicBox.getSerialNo" none none none true
      simpa [runOp, get_serial_number_trace] using this
    · simp [runOp, get_serial_number_trace, get_serial_number_st, endId_request]
  | getConfig p =>
    constructor
    · have := goodIds_request cfg c w "configManager.getConfig" (some p) none none true
      simpa [runOp, get_config_trace] using this
    · simp [runOp, get_config_trace, get_config_st, endId_request]
  | getDeviceName =>
    constructor
    · have := goodIds_request cfg c w "configManager.getConfig"
        (some (.obj [("name", .str "General")])) none none true
      simpa [runOp, get_device_name_trace, get_config_trace] using this
    · simp [runOp, get_device_name_trace, get_device_name_st, get_config_trace, endId_request]
  | getCoax ch => exact coax_get_goodIds_endId cfg c w ch c.id
  | setCoax ch ty ioline tm => exact coax_set_goodIds_endId cfg c w ch ty ioline tm c.id

theorem runOps_goodIds (cfg : ClientConfig) (ops : List Op) (c : ClientState)
    (w : List WireResp) :
    goodIds c.id (runOps cfg ops c w).2.2 = true := by
  induction ops generalizing c w with
  | nil => rfl
  | cons op rest ih =>
    simp only [runOps]
    rw [goodIds_append]
    have h1 := (runOp_goodIds_endId cfg op c w).1
    have h2 := (runOp_goodIds_endId cfg op c w).2
    rw [h1, h2]
    simp [ih]

end Rpc2

namespace Rpc2


theorem dictGet_mkEnvelope_params (c : ClientState) (m : String) (p : JVal)
    (o : Option JVal) :
    dictGet (mkEnvelope c m (some p) o none) "params" = some p := by
  have base : dictGet (dictSet [("method", JVal.str m), ("id", JVal.num (c.id : Int))]
      "params" p) "params" = some p := by
    rw [dictGet_dictSet, if_pos rfl]
  simp only [mkEnvelope]
  cases o <;> (repeat' split) <;> simp [dictGet_dictSet, base]

theorem login_startsWithLogin (cfg : ClientConfig) (c : ClientState) (w : List WireResp) :
    startsWithLogin (login cfg c w).trace = true := by
  simp only [login]
  repeat' split
  all_goals
    simp [request_trace, startsWithLogin, evMethod, dictGet_mkEnvelope_method]

theorem coax_get_trace_shape (cfg : ClientConfig) (c : ClientState) (w : List WireResp)
    (channel : Int) :
    ∃ rest, (get_coaxial_control_io_status cfg c w channel).trace =
        (login cfg c w).trace ++ rest ∧
      (rest = [] ∨ ∃ s, rest = [Ev.sent s] ∧
        evMethod (Ev.sent s) = some "CoaxialControlIO.getStatus") := by
  simp only [get_coaxial_control_io_status]
  repeat' split
  all_goals try simp only [request_trace]
  all_goals
    first
    | exact ⟨[], (List.append_nil _).symm, Or.inl rfl⟩
    | exact ⟨_, rfl, Or.inr ⟨_, rfl, evMethod_mkEnvelope _ _ _ _ _⟩⟩

theorem coax_set_trace_shape (cfg : ClientConfig) (c : ClientState) (w : List WireResp)
    (channel type_ ioline trigger_mode : Int) :
    ∃ rest, (set_coaxial_control_io_status cfg c w channel type_ ioline trigger_mode).trace =
        (login cfg c w).trace ++ rest ∧
      (rest = [] ∨ ∃ s rest2, rest = Ev.sent s :: rest2 ∧
        evMethod (Ev.sent s) = some "CoaxialControlIO.control") := by
  simp only [set_coaxial_control_io_status]
  repeat' split
  all_goals try simp only [request_trace, List.append_assoc]
  all_goals
    first
    | exact ⟨[], (List.append_nil _).symm, Or.inl rfl⟩
    | exact ⟨_, rfl, Or.inr ⟨_, _, rfl, evMethod_mkEnvelope _ _ _ _ _⟩⟩

end Rpc2

namespace Rpc2

theorem pyIndex_cons_hit (k : String) (v : JVal) (rest : JObj) :
    pyIndex (JVal.obj ((k, v) :: rest)) k = .ok v := by
  simp [pyIndex, dictGet, find?_cons_pos (fun q : String × JVal => q.1 == k) (k, v) rest (by simp)]

theorem pyIndex_cons_miss (k k' : String) (v : JVal) (rest : JObj) (h : (k == k') = false) :
    pyIndex (JVal.obj ((k, v) :: rest)) k' = pyIndex (JVal.obj rest) k' := by
  simp [pyIndex, dictGet, find?_cons_neg (fun q : String × JVal => q.1 == k') (k, v) rest (by simp_all)]

end Rpc2

namespace Rpc2

set_option maxHeartbeats 2000000 in
theorem login_phase2_password (cfg : ClientConfig) (c : ClientState) (n1 : Nat)
    (sv : JVal) (realm rnd : String) (w2 : List WireResp) :
    ((login cfg c (.ok n1 (.json (.obj [("session", sv),
        ("params", .obj [("realm", .str realm), ("random", .str rnd)])])) :: w2)).trace[2]?).bind
      sentPassword =
      some (.str (pass_hash_of cfg.username rnd (pwd_hash_of cfg.username realm cfg.password))) := by
  have hsess := pyIndex_cons_hit "session" sv
    [("params", JVal.obj [("realm", JVal.str realm), ("random", JVal.str rnd)])]
  have hparams : pyIndex (JVal.obj [("session", sv),
      ("params", JVal.obj [("realm", JVal.str realm), ("random", JVal.str rnd)])]) "params" =
      .ok (JVal.obj [("realm", JVal.str realm), ("random", JVal.str rnd)]) := by
    rw [pyIndex_cons_miss "session" "params" sv _ (by simp)]
    exact pyIndex_cons_hit "params" _ []
  have hrealm := pyIndex_cons_hit "realm" (JVal.str realm) [("random", JVal.str rnd)]
  have hrnd : pyIndex (JVal.obj [("realm", JVal.str realm), ("random", JVal.str rnd)]) "random" =
      .ok (JVal.str rnd) := by
    rw [pyIndex_cons_miss "realm" "random" _ _ (by simp)]
    exact pyIndex_cons_hit "random" _ []
  simp only [login, request, respond, List.tail_cons, Bool.false_eq_true, if_false,
    hsess, hparams, hrealm, hrnd, pyStr]
  repeat' split
  all_goals
    simp only [current_time_trace, request_trace, List.cons_append, List.nil_append,
      List.append_nil, List.getElem?_cons_succ, List.getElem?_cons_zero, Option.some_bind]
  all_goals
    simp only [sentPassword, dictGet_mkEnvelope_params]
  all_goals
    simp [dictGet, List.find?]

end Rpc2

namespace Rpc2

theorem respond_cons (vr : Bool) (x : WireResp) (l : List WireResp) :
    respond vr (x :: l) = respond vr [x] := by
  cases x with
  | exn => rfl
  | ok status body => cases body <;> rfl


set_option maxHeartbeats 1000000 in
theorem login_success_path (cfg : ClientConfig) (c : ClientState) (n1 n2 n3 : Nat)
    (sv : JVal) (realm rnd : String) (f2 : JObj) (j3 : JVal) (rest : List WireResp)
    (h2 : dictGet f2 "result" = some (.bool true))
    (hv3 : respond true [WireResp.ok n3 (.json j3)] = .ok j3) :
    (login cfg c (WireResp.ok n1 (.json (challengeResp sv realm rnd)) ::
        WireResp.ok n2 (.json (.obj f2)) :: WireResp.ok n3 (.json j3) :: rest)).trace.length = 4 ∧
    (login cfg c (WireResp.ok n1 (.json (challengeResp sv realm rnd)) ::
        WireResp.ok n2 (.json (.obj f2)) :: WireResp.ok n3 (.json j3) :: rest)).trace[0]? =
      some Ev.loginStart ∧
    ((login cfg c (WireResp.ok n1 (.json (challengeResp sv realm rnd)) ::
        WireResp.ok n2 (.json (.obj f2)) :: WireResp.ok n3 (.json j3) :: rest)).trace[1]?).bind
      evId = some 1 ∧
    ((login cfg c (WireResp.ok n1 (.json (challengeResp sv realm rnd)) ::
        WireResp.ok n2 (.json (.obj f2)) :: WireResp.ok n3 (.json j3) :: rest)).trace[2]?).bind
      evId = some 2 ∧
    ((login cfg c (WireResp.ok n1 (.json (challengeResp sv realm rnd)) ::
        WireResp.ok n2 (.json (.obj f2)) :: WireResp.ok n3 (.json j3) :: rest)).trace[3]?).bind
      evId = some 3 ∧
    ((login cfg c (WireResp.ok n1 (.json (challengeResp sv realm rnd)) ::
        WireResp.ok n2 (.json (.obj f2)) :: WireResp.ok n3 (.json j3) :: rest)).trace[3]?).bind
      evMethod = some "global.getCurrentTime" ∧
    (login cfg c (WireResp.ok n1 (.json (challengeResp sv realm rnd)) ::
        WireResp.ok n2 (.json (.obj f2)) :: WireResp.ok n3 (.json j3) :: rest)).st.logged_in = true ∧
    (∀ e : Err, timeExtract j3 = .error e →
      (login cfg c (WireResp.ok n1 (.json (challengeResp sv realm rnd)) ::
        WireResp.ok n2 (.json (.obj f2)) :: WireResp.ok n3 (.json j3) :: rest)).res = .error e) := by
  have hsess := pyIndex_cons_hit "session" sv
    [("params", JVal.obj [("realm", JVal.str realm), ("random", JVal.str rnd)])]
  have hparams : pyIndex (JVal.obj [("session", sv),
      ("params", JVal.obj [("realm", JVal.str realm), ("random", JVal.str rnd)])]) "params" =
      .ok (JVal.obj [("realm", JVal.str realm), ("random", JVal.str rnd)]) := by
    rw [pyIndex_cons_miss "session" "params" sv _ (by simp)]
    exact pyIndex_cons_hit "params" _ []
  have hrealm := pyIndex_cons_hit "realm" (JVal.str realm) [("random", JVal.str rnd)]
  have hrnd : pyIndex (JVal.obj [("realm", JVal.str realm), ("random", JVal.str rnd)]) "random" =
      .ok (JVal.str rnd) := by
    rw [pyIndex_cons_miss "realm" "random" _ _ (by simp)]
    exact pyIndex_cons_hit "random" _ []
  have hv3' : respond true (WireResp.ok n3 (.json j3) :: rest) = .ok j3 := by
    rw [respond_cons]; exact hv3
  have hr1 : respond false (WireResp.ok n1 (.json (JVal.obj [("session", sv),
      ("params", JVal.obj [("realm", JVal.str realm), ("random", JVal.str rnd)])])) ::
      WireResp.ok n2 (.json (.obj f2)) :: WireResp.ok n3 (.json j3) :: rest) =
      .ok (JVal.obj [("session", sv),
        ("params", JVal.obj [("realm", JVal.str realm), ("random", JVal.str rnd)])]) := by
    rw [respond_cons]; rfl
  have hr2 : respond true (WireResp.ok n2 (.json (.obj f2)) ::
      WireResp.ok n3 (.json j3) :: rest) = .ok (.obj f2) := by
    rw [respond_cons]; simp [respond, h2]
  rcases hp3 : pyIndex j3 "params" with ep | ps
  · simp only [login, request, List.tail_cons, Bool.false_eq_true, if_false,
      reduceIte, hr1, challengeResp, hsess, hparams, hrealm, hrnd, pyStr, hr2, h2, pyGet,
      pyEqTrue, current_time, hv3', hp3, request_trace, List.cons_append, List.nil_append,
      List.append_nil, List.length_cons, List.length_nil, List.getElem?_cons_succ,
      List.getElem?_cons_zero, Option.some_bind]
    refine ⟨by trivial, by trivial, ?_, ?_, ?_, ?_, by trivial, ?_⟩
    · simp [evId, dictGet_mkEnvelope_id]
    · simp [evId, dictGet_mkEnvelope_id]
    · simp [evId, dictGet_mkEnvelope_id]
    · simp [evMethod, dictGet_mkEnvelope_method]
    · intro e he
      simp only [timeExtract, hp3, Except.error.injEq] at he
      rw [he]
  · rcases ht3 : pyIndex ps "time" with et | tv
    · simp only [login, request, List.tail_cons, Bool.false_eq_true, if_false,
        reduceIte, hr1, challengeResp, hsess, hparams, hrealm, hrnd, pyStr, hr2, h2, pyGet,
        pyEqTrue, current_time, hv3', hp3, ht3, request_trace, List.cons_append,
        List.nil_append, List.append_nil, List.length_cons, List.length_nil,
        List.getElem?_cons_succ, List.getElem?_cons_zero, Option.some_bind]
      refine ⟨by trivial, by trivial, ?_, ?_, ?_, ?_, by trivial, ?_⟩
      · simp [evId, dictGet_mkEnvelope_id]
      · simp [evId, dictGet_mkEnvelope_id]
      · simp [evId, dictGet_mkEnvelope_id]
      · simp [evMethod, dictGet_mkEnvelope_method]
      · intro e he
        simp only [timeExtract, hp3, ht3, Except.error.injEq] at he
        rw [he]
    · simp only [login, request, List.tail_cons, Bool.false_eq_true, if_false,
        reduceIte, hr1, challengeResp, hsess, hparams, hrealm, hrnd, pyStr, hr2, h2, pyGet,
        pyEqTrue, current_time, hv3', hp3, ht3, request_trace, List.cons_append,
        List.nil_append, List.append_nil, List.length_cons, List.length_nil,
        List.getElem?_cons_succ, List.getElem?_cons_zero, Option.some_bind]
      refine ⟨by trivial, by trivial, ?_, ?_, ?_, ?_, by trivial, ?_⟩
      · simp [evId, dictGet_mkEnvelope_id]
      · simp [evId, dictGet_mkEnvelope_id]
      · simp [evId, dictGet_mkEnvelope_id]
      · simp [evMethod, dictGet_mkEnvelope_method]
      · intro e he
        simp only [timeExtract, hp3, ht3] at he
        exact Except.noConfusion he

end Rpc2

namespace Rpc2

set_option maxHeartbeats 1000000 in
theorem login_softfail (cfg : ClientConfig) (c : ClientState) (n1 n2 : Nat)
    (sv : JVal) (realm rnd : String) (f2 : JObj) (w2 : List WireResp)
    (hpass : respond true [WireResp.ok n2 (.json (.obj f2))] = .ok (.obj f2))
    (hfail : pyEqTrue (dictGet f2 "result") = false) :
    (login cfg c (WireResp.ok n1 (.json (challengeResp sv realm rnd)) ::
        WireResp.ok n2 (.json (.obj f2)) :: w2)).res = .ok (JVal.bool false) ∧
    (login cfg c (WireResp.ok n1 (.json (challengeResp sv realm rnd)) ::
        WireResp.ok n2 (.json (.obj f2)) :: w2)).st.logged_in = c.logged_in := by
  have hsess := pyIndex_cons_hit "session" sv
    [("params", JVal.obj [("realm", JVal.str realm), ("random", JVal.str rnd)])]
  have hparams : pyIndex (JVal.obj [("session", sv),
      ("params", JVal.obj [("realm", JVal.str realm), ("random", JVal.str rnd)])]) "params" =
      .ok (JVal.obj [("realm", JVal.str realm), ("random", JVal.str rnd)]) := by
    rw [pyIndex_cons_miss "session" "params" sv _ (by simp)]
    exact pyIndex_cons_hit "params" _ []
  have hrealm := pyIndex_cons_hit "realm" (JVal.str realm) [("random", JVal.str rnd)]
  have hrnd : pyIndex (JVal.obj [("realm", JVal.str realm), ("random", JVal.str rnd)]) "random" =
      .ok (JVal.str rnd) := by
    rw [pyIndex_cons_miss "realm" "random" _ _ (by simp)]
    exact pyIndex_cons_hit "random" _ []
  have hr1 : respond false (WireResp.ok n1 (.json (JVal.obj [("session", sv),
      ("params", JVal.obj [("realm", JVal.str realm), ("random", JVal.str rnd)])])) ::
      WireResp.ok n2 (.json (.obj f2)) :: w2) =
      .ok (JVal.obj [("session", sv),
        ("params", JVal.obj [("realm", JVal.str realm), ("random", JVal.str rnd)])]) := by
    rw [respond_cons]; rfl
  have hr2 : respond true (WireResp.ok n2 (.json (.obj f2)) :: w2) = .ok (.obj f2) := by
    rw [respond_cons]; exact hpass
  simp only [login, request, List.tail_cons, Bool.false_eq_true, if_false, reduceIte,
    challengeResp, hr1, hsess, hparams, hrealm, hrnd, pyStr, hr2, pyGet, hfail]
  exact ⟨by trivial, by trivial⟩


theorem logout_spec (cfg : ClientConfig) (c : ClientState) (w : List WireResp) :
    (logout cfg c w).res = .ok (logout_result_spec w) := by
  simp only [logout, request, respond, logout_result_spec]
  cases w with
  | nil => rfl
  | cons x rest =>
    cases x with
    | exn => rfl
    | ok status body =>
      cases body with
      | invalid raw => rfl
      | json j =>
        cases j with
        | obj fields =>
          rcases hres : dictGet fields "result" with _ | v
          · simp [hres, pyGet]
          · rcases v with _ | b | n | s2 | xs | fs
            · simp [hres, pyGet]
            · cases b <;> simp [hres, pyGet]
            · simp [hres, pyGet]
            · simp [hres, pyGet]
            · simp [hres, pyGet]
            · simp [hres, pyGet]
        | null => rfl
        | bool b => rfl
        | num n => rfl
        | str s2 => rfl
        | arr xs => rfl

end Rpc2

namespace Rpc2

theorem mkEnvelope_extra_override (c : ClientState) (m : String) (p o : Option JVal)
    (e : JObj) (k : String) (v : JVal)
    (hnd : (e.map Prod.fst).Nodup) (hk : dictGet e k = some v) :
    dictGet (mkEnvelope c m p o (some e)) k =
      some (if k = "session" ∧ c.session_id.truthy = true then c.session_id else v) := by
  simp only [mkEnvelope]
  by_cases hks : k = "session"
  · subst hks
    by_cases htr : c.session_id.truthy = true
    · rw [if_pos htr, dictGet_dictSet, if_pos rfl, if_pos ⟨rfl, htr⟩]
    · rw [if_neg htr, dictGet_dictUpdate_of_some _ _ _ _ hnd hk,
        if_neg (fun hh : _ ∧ _ => htr hh.2)]
  · by_cases htr : c.session_id.truthy = true
    · rw [if_pos htr, dictGet_dictSet, if_neg hks,
        dictGet_dictUpdate_of_some _ _ _ _ hnd hk, if_neg (fun hh : _ ∧ _ => hks hh.1)]
    · rw [if_neg htr, dictGet_dictUpdate_of_some _ _ _ _ hnd hk,
        if_neg (fun hh : _ ∧ _ => hks hh.1)]

theorem mkEnvelope_object_iff (c : ClientState) (m : String) (p o : Option JVal)
    (eopt : Option JObj)
    (he : match eopt with | none => True | some e => dictGet e "object" = none) :
    (dictGet (mkEnvelope c m p o eopt) "object").isSome = objTruthy o := by
  have hd0 : dictGet [("method", JVal.str m), ("id", JVal.num (Int.ofNat c.id))] "object" = none := by
    rw [dictGet, find?_cons_neg (fun q : String × JVal => q.1 == "object") _ _ (by simp),
      find?_cons_neg (fun q : String × JVal => q.1 == "object") _ _ (by simp)]
    rfl
  have hd1 : dictGet (match p with
      | some pp => dictSet [("method", JVal.str m), ("id", JVal.num (Int.ofNat c.id))] "params" pp
      | none => [("method", JVal.str m), ("id", JVal.num (Int.ofNat c.id))]) "object" = none := by
    cases p with
    | none => exact hd0
    | some pp => rw [dictGet_dictSet, if_neg (by decide)]; exact hd0
  have hd2 : ∀ dd : JObj, dictGet dd "object" = none →
      (dictGet (match o with
        | some oo => if oo.truthy then dictSet dd "object" oo else dd
        | none => dd) "object").isSome = objTruthy o := by
    intro dd hdd
    cases o with
    | none => dsimp only; rw [hdd]; rfl
    | some ov =>
      dsimp only
      by_cases htr : ov.truthy = true
      · rw [if_pos htr, dictGet_dictSet, if_pos rfl]
        simp [objTruthy, htr]
      · rw [if_neg htr, hdd]
        simp only [objTruthy, Option.isSome_none]
        cases hov : ov.truthy with
        | true => exact absurd hov htr
        | false => rfl
  have hsess : ∀ d : JObj,
      dictGet (if c.session_id.truthy then dictSet d "session" c.session_id else d) "object" =
        dictGet d "object" := by
    intro d
    split
    · rw [dictGet_dictSet, if_neg (by decide)]
    · rfl
  cases eopt with
  | none =>
    simp only [mkEnvelope]
    rw [hsess]
    exact hd2 _ hd1
  | some ee =>
    simp only [mkEnvelope]
    rw [hsess]
    have he2 : dictGet ee "object" = none := he
    cases o with
    | none =>
      dsimp only
      rw [dictGet_dictUpdate_of_none _ _ _ he2, hd1]
      rfl
    | some ov =>
      dsimp only
      by_cases htr : ov.truthy = true
      · rw [if_pos htr, dictGet_dictUpdate_of_none _ _ _ he2, dictGet_dictSet, if_pos rfl]
        simp [objTruthy, htr]
      · rw [if_neg htr, dictGet_dictUpdate_of_none _ _ _ he2, hd1]
        simp only [objTruthy, Option.isSome_none]
        cases hov : ov.truthy with
        | true => exact absurd hov htr
        | false => rfl

end Rpc2

namespace Rpc2

/-- C1: for every sequence of operations on a single client instance, the `id`
field of each request envelope sent on the wire is strictly increasing by 1
per request, and after any login attempt is initiated the counter is reset so
that the next request (the challenge phase itself) carries id 1.  `goodIds`
checks exactly this discipline over the trace of a run; the operation
alphabet `Op` covers the client calls made in this repository (none of which
pass `extra`, which per the envelope theorems can overwrite even `id`). -/
theorem claim_C1 (username password address : String) (port : Nat)
    (ops : List Op) (w : List WireResp) :
    goodIds 0 (runOps (mkClient username password address port).1 ops
      (mkClient username password address port).2 w).2.2 = true :=
  runOps_goodIds (mkClient username password address port).1 ops
    (mkClient username password address port).2 w

/-- C4: a decoded response whose `result` is explicitly `false` makes the call
raise the ApiCallError (`ConnectionError`) carrying the full decoded response
when `verify_result` is true (the default), while the very same response is
returned without raising when `verify_result` is false. -/
theorem claim_C4 (cfg : ClientConfig) (c : ClientState) (m : String)
    (p o : Option JVal) (e : Option JObj) (u : Option String) (status : Nat)
    (f : JObj) (rest : List WireResp)
    (h : dictGet f "result" = some (.bool false)) :
    (request cfg c (.ok status (.json (.obj f)) :: rest) m p o e u true).res =
      .error (.apiCallError (.obj f)) ∧
    (request cfg c (.ok status (.json (.obj f)) :: rest) m p o e u false).res =
      .ok (.obj f) := by
  constructor
  · simp [request, respond, h]
  · simp [request, respond]

theorem claim_C4_witness :
    dictGet [("result", JVal.bool false)] "result" = some (.bool false) ∧
    ((request cfgEx stEx (.ok 200 (.json (.obj [("result", JVal.bool false)])) :: [])
        "m" none none none none true).res =
      .error (.apiCallError (.obj [("result", JVal.bool false)])) ∧
    (request cfgEx stEx (.ok 200 (.json (.obj [("result", JVal.bool false)])) :: [])
        "m" none none none none false).res = .ok (.obj [("result", JVal.bool false)])) :=
  ⟨rfl, claim_C4 cfgEx stEx "m" none none none none 200 [("result", JVal.bool false)] [] rfl⟩

/-- C6: a response body that does not parse as JSON makes the call fail with
the decode `ValueError`, whatever the HTTP status code and whatever the
`verify_result` flag; exactly one wire interaction is consumed (no retry) and
exactly one envelope was posted. -/
theorem claim_C6 (cfg : ClientConfig) (c : ClientState) (m : String)
    (p o : Option JVal) (e : Option JObj) (u : Option String) (vr : Bool)
    (status : Nat) (raw : String) (rest : List WireResp) :
    (request cfg c (.ok status (.invalid raw) :: rest) m p o e u vr).res =
      .error (.decodeError raw) ∧
    (request cfg c (.ok status (.invalid raw) :: rest) m p o e u vr).wire = rest ∧
    (request cfg c (.ok status (.invalid raw) :: rest) m p o e u vr).trace.length = 1 :=
  ⟨rfl, rfl, rfl⟩

/-- C7: logout returns `Except.ok b` for every transport outcome — it never
propagates an exception — and `b` is true exactly when the next wire
interaction is an HTTP response decoding to a dict whose `result` is the
boolean `true` (the `is True` identity check of line 137). -/
theorem claim_C7 (cfg : ClientConfig) (c : ClientState) (w : List WireResp) :
    (logout cfg c w).res = .ok (logout_result_spec w) :=
  logout_spec cfg c w

end Rpc2

namespace Rpc2

set_option maxRecDepth 100000 in
/-- C2: the hash-phase password put on the wire is exactly
`upperHex(MD5(username + ":" + random + ":" + upperHex(MD5(username + ":" +
realm + ":" + password))))` with `realm` and `random` taken from the
challenge response, for every username, password, realm and random (the third
trace entry of `login` is the hash-phase envelope when the challenge
succeeds); and the digests reproduce the known vectors for username "admin",
realm "ABCDEF", password "secret", random "123456", plus a 17-character
random whose 56-byte phase-2 phrase exercises the MD5 padding boundary. -/
theorem claim_C2 :
    (∀ (cfg : ClientConfig) (c : ClientState) (n1 : Nat) (sv : JVal)
      (realm rnd : String) (w2 : List WireResp),
      ((login cfg c (.ok n1 (.json (.obj [("session", sv),
          ("params", .obj [("realm", .str realm), ("random", .str rnd)])])) ::
        w2)).trace[2]?).bind sentPassword =
        some (.str (pass_hash_of cfg.username rnd
          (pwd_hash_of cfg.username realm cfg.password)))) ∧
    pwd_hash_of "admin" "ABCDEF" "secret" = "B91BD3A21B6D6D2D82D997D3A6552727" ∧
    pass_hash_of "admin" "123456" (pwd_hash_of "admin" "ABCDEF" "secret") =
      "8DD7FD6A38C23F46B1F10C06D84AAF23" ∧
    pass_hash_of "admin" "12345678901234567" (pwd_hash_of "admin" "ABCDEF" "secret") =
      "22A89F4516958C200FD1416923833918" :=
  ⟨fun cfg c n1 sv realm rnd w2 => login_phase2_password cfg c n1 sv realm rnd w2,
   rfl, rfl, rfl⟩

/-- C5: both coaxial operations run `login` first and the very next posted
envelope (if the operation gets that far) is the `CoaxialControlIO.getStatus`
resp. `CoaxialControlIO.control` request, with nothing in between — the
operation trace is the login trace followed immediately by that request.
This holds for every prior state, in particular when a session token is
already held, and the login trace itself starts with the login reset followed
by a posted `global.login` request. -/
theorem claim_C5 (cfg : ClientConfig) (c : ClientState) (w : List WireResp)
    (channel type_ ioline trigger_mode : Int) :
    (∃ rest, (get_coaxial_control_io_status cfg c w channel).trace =
        (login cfg c w).trace ++ rest ∧
      (rest = [] ∨ ∃ s, rest = [Ev.sent s] ∧
        evMethod (Ev.sent s) = some "CoaxialControlIO.getStatus")) ∧
    (∃ rest, (set_coaxial_control_io_status cfg c w channel type_ ioline
        trigger_mode).trace = (login cfg c w).trace ++ rest ∧
      (rest = [] ∨ ∃ s rest2, rest = Ev.sent s :: rest2 ∧
        evMethod (Ev.sent s) = some "CoaxialControlIO.control")) ∧
    startsWithLogin (login cfg c w).trace = true :=
  ⟨coax_get_trace_shape cfg c w channel,
   coax_set_trace_shape cfg c w channel type_ ioline trigger_mode,
   login_startsWithLogin cfg c w⟩

end Rpc2

namespace Rpc2

set_option maxRecDepth 1000000 in
set_option maxHeartbeats 1000000 in
/-- C3 counterexample: the hash-phase check is Python `== True`, not an
identity test, and `logged_in` is never reset.  First conjunct: a hash-phase
response with `result: 1` — not the boolean `true` — still logs in (the
response, a truthy value, is returned and `logged_in` becomes true).  Second
conjunct: on a client already logged in, a failed re-login returns `False`
but `logged_in` stays true, not false. -/
theorem claim_C3_counterexample :
    ((login cfgEx stEx [.ok 200 (.json (challengeResp (.str "S1") "r" "n")),
        .ok 200 (.json (.obj [("result", .num 1)])),
        .ok 200 (.json (.obj [("result", .bool true),
          ("params", .obj [("time", .str "t")])]))]).res =
      .ok (.obj [("result", .num 1)]) ∧
    (login cfgEx stEx [.ok 200 (.json (challengeResp (.str "S1") "r" "n")),
        .ok 200 (.json (.obj [("result", .num 1)])),
        .ok 200 (.json (.obj [("result", .bool true),
          ("params", .obj [("time", .str "t")])]))]).st.logged_in = true) ∧
    ((login cfgEx { stEx with logged_in := true }
        [.ok 200 (.json (challengeResp (.str "S1") "r" "n")),
         .ok 200 (.json (.obj [("result", .str "no")]))]).res = .ok (.bool false) ∧
    (login cfgEx { stEx with logged_in := true }
        [.ok 200 (.json (challengeResp (.str "S1") "r" "n")),
         .ok 200 (.json (.obj [("result", .str "no")]))]).st.logged_in = true) :=
  ⟨⟨rfl, rfl⟩, ⟨rfl, rfl⟩⟩

/-- C3 (amended): when the hash-phase response passes result verification but
its `result` field compares unequal to `True` under Python `==` (i.e. it is
neither the boolean `true` nor the number 1), `login` returns Python `False`
— a falsy value, without raising — and `logged_in` is left unchanged; in
particular it remains false for a client that was never logged in. -/
theorem claim_C3 (cfg : ClientConfig) (c : ClientState) (n1 n2 : Nat)
    (sv : JVal) (realm rnd : String) (f2 : JObj) (w2 : List WireResp)
    (hpass : respond true [WireResp.ok n2 (.json (.obj f2))] = .ok (.obj f2))
    (hfail : pyEqTrue (dictGet f2 "result") = false) :
    (login cfg c (WireResp.ok n1 (.json (challengeResp sv realm rnd)) ::
        WireResp.ok n2 (.json (.obj f2)) :: w2)).res = .ok (JVal.bool false) ∧
    (login cfg c (WireResp.ok n1 (.json (challengeResp sv realm rnd)) ::
        WireResp.ok n2 (.json (.obj f2)) :: w2)).st.logged_in = c.logged_in :=
  login_softfail cfg c n1 n2 sv realm rnd f2 w2 hpass hfail

set_option maxRecDepth 1000000 in
set_option maxHeartbeats 1000000 in
theorem claim_C3_witness :
    (respond true [WireResp.ok 200 (.json (.obj [("result", JVal.str "no")]))] =
        .ok (.obj [("result", JVal.str "no")]) ∧
      pyEqTrue (dictGet [("result", JVal.str "no")] "result") = false) ∧
    ((login cfgEx stEx [WireResp.ok 200 (.json (challengeResp (.str "S1") "r" "n")),
        WireResp.ok 200 (.json (.obj [("result", JVal.str "no")]))]).res =
      .ok (JVal.bool false) ∧
    (login cfgEx stEx [WireResp.ok 200 (.json (challengeResp (.str "S1") "r" "n")),
        WireResp.ok 200 (.json (.obj [("result", JVal.str "no")]))]).st.logged_in =
      stEx.logged_in) :=
  ⟨⟨rfl, rfl⟩,
   claim_C3 cfgEx stEx 200 200 (.str "S1") "r" "n" [("result", JVal.str "no")] [] rfl rfl⟩

end Rpc2

namespace Rpc2

/-- C8 counterexample: `extra` is merged before the `session` assignment
(lines 56-59), so when a truthy session token is held the wire envelope
carries the stored token, not the `session` value provided in `extra` — the
claim's "extra overrides every prior field, including `session`" fails. -/
theorem claim_C8_counterexample :
    (request cfgEx { stEx with session_id := .str "S1" } [] "m" none none
        (some [("session", .str "X")]) none true).trace =
      [.sent ⟨"http://h:80/RPC2",
        [("method", .str "m"), ("id", .num 1), ("session", .str "S1")]⟩] ∧
    dictGet [("method", JVal.str "m"), ("id", JVal.num 1), ("session", JVal.str "S1")]
        "session" ≠ some (.str "X") := by
  constructor
  · rfl
  · intro h
    have h1 : some (JVal.str "S1") = some (JVal.str "X") := by
      rw [show dictGet [("method", JVal.str "m"), ("id", JVal.num 1),
        ("session", JVal.str "S1")] "session" = some (JVal.str "S1") from rfl] at h
      exact h
    exact absurd (JVal.str.inj (Option.some.inj h1)) (by decide)

/-- C8 (amended): the `extra` pairs are merged after `method`, `id`, `params`
and `object`, so for every key of `extra` the wire envelope carries the value
from `extra` — except `session`, which is assigned after the merge whenever a
truthy session token is held and then carries the stored token instead (when
no token is held, the `session` value from `extra` survives). -/
theorem claim_C8 (cfg : ClientConfig) (c : ClientState) (w : List WireResp)
    (m : String) (p o : Option JVal) (u : Option String) (vr : Bool)
    (e : JObj) (k : String) (v : JVal)
    (hnd : (e.map Prod.fst).Nodup) (hk : dictGet e k = some v) :
    (request cfg c w m p o (some e) u vr).trace =
      [.sent ⟨resolveUrl cfg u, mkEnvelope { c with id := c.id + 1 } m p o (some e)⟩] ∧
    dictGet (mkEnvelope { c with id := c.id + 1 } m p o (some e)) k =
      some (if k = "session" ∧ c.session_id.truthy = true then c.session_id else v) :=
  ⟨request_trace cfg c w m p o (some e) u vr,
   mkEnvelope_extra_override { c with id := c.id + 1 } m p o e k v hnd hk⟩

theorem claim_C8_witness :
    (([(("id" : String), JVal.num 99)].map Prod.fst).Nodup ∧
      dictGet [("id", JVal.num 99)] "id" = some (JVal.num 99)) ∧
    ((request cfgEx stEx [] "m" none none (some [("id", JVal.num 99)]) none true).trace =
      [.sent ⟨resolveUrl cfgEx none,
        mkEnvelope { stEx with id := stEx.id + 1 } "m" none none
          (some [("id", JVal.num 99)])⟩] ∧
    dictGet (mkEnvelope { stEx with id := stEx.id + 1 } "m" none none
        (some [("id", JVal.num 99)])) "id" =
      some (if "id" = "session" ∧ stEx.session_id.truthy = true then stEx.session_id
        else JVal.num 99)) :=
  ⟨⟨by decide, rfl⟩,
   claim_C8 cfgEx stEx [] "m" none none none true [("id", JVal.num 99)] "id"
     (JVal.num 99) (by decide) rfl⟩

/-- C9 counterexample: the envelope can contain an `object` field even though
the `object_id` argument was not provided at all — `extra` can inject it —
so the claimed "if and only if" fails as stated. -/
theorem claim_C9_counterexample :
    (request cfgEx stEx [] "m" none none (some [("object", .num 5)]) none true).trace =
      [.sent ⟨"http://h:80/RPC2",
        [("method", .str "m"), ("id", .num 1), ("object", .num 5)]⟩] ∧
    (dictGet [("method", JVal.str "m"), ("id", JVal.num 1), ("object", JVal.num 5)]
        "object").isSome = true :=
  ⟨rfl, rfl⟩

/-- C9 (amended): as long as `extra` does not itself carry an `object` key,
the envelope contains `object` if and only if the `object_id` argument is
provided and Python-truthy; in particular an `object_id` of 0 (or any other
falsy value) is silently omitted by the `if object_id:` check. -/
theorem claim_C9 (cfg : ClientConfig) (c : ClientState) (w : List WireResp)
    (m : String) (p o : Option JVal) (u : Option String) (vr : Bool)
    (eopt : Option JObj)
    (he : match eopt with | none => True | some e => dictGet e "object" = none) :
    (request cfg c w m p o eopt u vr).trace =
      [.sent ⟨resolveUrl cfg u, mkEnvelope { c with id := c.id + 1 } m p o eopt⟩] ∧
    (dictGet (mkEnvelope { c with id := c.id + 1 } m p o eopt) "object").isSome =
      objTruthy o :=
  ⟨request_trace cfg c w m p o eopt u vr,
   mkEnvelope_object_iff { c with id := c.id + 1 } m p o eopt he⟩

theorem claim_C9_witness :
    (match (none : Option JObj) with
      | none => True
      | some e => dictGet e "object" = none) ∧
    ((request cfgEx stEx [] "m" none (some (JVal.num 0)) none none true).trace =
      [.sent ⟨resolveUrl cfgEx none,
        mkEnvelope { stEx with id := stEx.id + 1 } "m" none (some (JVal.num 0)) none⟩] ∧
    (dictGet (mkEnvelope { stEx with id := stEx.id + 1 } "m" none
        (some (JVal.num 0)) none) "object").isSome = objTruthy (some (JVal.num 0))) :=
  ⟨trivial,
   claim_C9 cfgEx stEx [] "m" none (some (JVal.num 0)) none true none trivial⟩

end Rpc2

namespace Rpc2

/-- C10: when the challenge succeeds and the hash-phase response has `result`
exactly `true`, `login` posts a third request — `global.getCurrentTime` — 
before returning (the logged f-string awaits `current_time()`), so a
successful login emits envelopes with ids 1, 2 and 3; `logged_in` is already
true at that point, and if the time response lacks `params.time` the
extraction error propagates out of `login` even though authentication
succeeded. -/
theorem claim_C10 (cfg : ClientConfig) (c : ClientState) (n1 n2 n3 : Nat)
    (sv : JVal) (realm rnd : String) (f2 : JObj) (j3 : JVal) (rest : List WireResp)
    (h2 : dictGet f2 "result" = some (.bool true))
    (hv3 : respond true [WireResp.ok n3 (.json j3)] = .ok j3) :
    (login cfg c (WireResp.ok n1 (.json (challengeResp sv realm rnd)) ::
        WireResp.ok n2 (.json (.obj f2)) :: WireResp.ok n3 (.json j3) :: rest)).trace.length = 4 ∧
    (login cfg c (WireResp.ok n1 (.json (challengeResp sv realm rnd)) ::
        WireResp.ok n2 (.json (.obj f2)) :: WireResp.ok n3 (.json j3) :: rest)).trace[0]? =
      some Ev.loginStart ∧
    ((login cfg c (WireResp.ok n1 (.json (challengeResp sv realm rnd)) ::
        WireResp.ok n2 (.json (.obj f2)) :: WireResp.ok n3 (.json j3) :: rest)).trace[1]?).bind
      evId = some 1 ∧
    ((login cfg c (WireResp.ok n1 (.json (challengeResp sv realm rnd)) ::
        WireResp.ok n2 (.json (.obj f2)) :: WireResp.ok n3 (.json j3) :: rest)).trace[2]?).bind
      evId = some 2 ∧
    ((login cfg c (WireResp.ok n1 (.json (challengeResp sv realm rnd)) ::
        WireResp.ok n2 (.json (.obj f2)) :: WireResp.ok n3 (.json j3) :: rest)).trace[3]?).bind
      evId = some 3 ∧
    ((login cfg c (WireResp.ok n1 (.json (challengeResp sv realm rnd)) ::
        WireResp.ok n2 (.json (.obj f2)) :: WireResp.ok n3 (.json j3) :: rest)).trace[3]?).bind
      evMethod = some "global.getCurrentTime" ∧
    (login cfg c (WireResp.ok n1 (.json (challengeResp sv realm rnd)) ::
        WireResp.ok n2 (.json (.obj f2)) :: WireResp.ok n3 (.json j3) :: rest)).st.logged_in = true ∧
    (∀ e : Err, timeExtract j3 = .error e →
      (login cfg c (WireResp.ok n1 (.json (challengeResp sv realm rnd)) ::
        WireResp.ok n2 (.json (.obj f2)) :: WireResp.ok n3 (.json j3) :: rest)).res = .error e) :=
  login_success_path cfg c n1 n2 n3 sv realm rnd f2 j3 rest h2 hv3

set_option maxRecDepth 1000000 in
set_option maxHeartbeats 1000000 in
theorem claim_C10_witness :
    (dictGet [("result", JVal.bool true)] "result" = some (.bool true) ∧
      respond true [WireResp.ok 200 (.json (.obj [("result", JVal.bool true)]))] =
        .ok (.obj [("result", JVal.bool true)]) ∧
      timeExtract (.obj [("result", JVal.bool true)]) = .error (.keyError "params")) ∧
    ((login cfgEx stEx [WireResp.ok 200 (.json (challengeResp (.str "S1") "r" "n")),
        WireResp.ok 200 (.json (.obj [("result", JVal.bool true)])),
        WireResp.ok 200 (.json (.obj [("result", JVal.bool true)]))]).st.logged_in = true ∧
    (login cfgEx stEx [WireResp.ok 200 (.json (challengeResp (.str "S1") "r" "n")),
        WireResp.ok 200 (.json (.obj [("result", JVal.bool true)])),
        WireResp.ok 200 (.json (.obj [("result", JVal.bool true)]))]).res =
      .error (.keyError "params")) :=
  by
  have h := claim_C10 cfgEx stEx 200 200 200 (.str "S1") "r" "n"
    [("result", JVal.bool true)] (.obj [("result", JVal.bool true)]) [] rfl rfl
  exact ⟨⟨rfl, rfl, rfl⟩, h.2.2.2.2.2.2.1, h.2.2.2.2.2.2.2 (.keyError "params") rfl⟩

end Rpc2
